import Mathlib

/-!
Shallow embedding of the FastAPI hotel-booking backend
(models.py, fastapi_project/schemas.py, routers/router_users.py,
routers/router_admins.py) and proofs about its reservation-consistency
workflow.

Tables are lists of rows; each endpoint is a function from the database
state (plus the values the environment supplies: the current date, the
current timestamp, the next autoincrement id) to a result and the new
state.  SQLAlchemy's .first() is List.find?, a mutation of the object
returned by .first() is an update of the first matching row, and a
query(...).filter(...).update(...) is an update of every matching row.
Dates and timestamps are integers (only order matters); prices are
integers (no claim computes with a price, values only pass through).
-/

namespace Hotel

/-- Row of the users table (models.py, class Users). -/
structure Users where
  id : Nat
  name : String
  surname : String
  passport_series : String
  phone_number : String
deriving Repr, DecidableEq

/-- Row of the rooms table (models.py, class Rooms).  models.py declares
floor as a String column but every value stored into it comes from the
integer floor field of RoomCreate/UpdateRoom, so it is embedded as Int. -/
structure Rooms where
  id : Nat
  room_type : String
  room_number : Int
  count_room : Int
  description : String
  floor : Int
  price : Int
  is_reserved : Bool
deriving Repr, DecidableEq

/-- Row of the reserved_rooms table (models.py, class ReservedRooms).
The commentary column is nullable in models.py but every row is created
from ReservedRoomCreate whose commentary is a required string. -/
structure ReservedRooms where
  id : Nat
  id_room : Nat
  name : String
  surname : String
  passport_series : String
  phone_number : String
  datetime : Int
  checkin : Int
  checkout : Int
  commentary : String
  actual : Bool
deriving Repr, DecidableEq

/-- Request body for room creation (schemas.py, class RoomCreate). -/
structure RoomCreate where
  room_type : String
  room_number : Int
  count_room : Int
  description : String
  floor : Int
  is_reserved : Bool := false
  price : Int
deriving Repr, DecidableEq

/-- Request body for partial room update (schemas.py, class UpdateRoom):
every field optional, none meaning "no value supplied". -/
structure UpdateRoom where
  room_type : Option String := none
  room_number : Option Int := none
  count_room : Option Int := none
  description : Option String := none
  floor : Option Int := none
  is_reserved : Option Bool := none
  price : Option Int := none
deriving Repr, DecidableEq

/-- Request body for booking (schemas.py, class ReservedRoomCreate). -/
structure ReservedRoomCreate where
  id_room : Nat
  name : String
  surname : String
  passport_series : String
  phone_number : String
  checkin : Int
  checkout : Int
  commentary : String
  actual : Bool := true
deriving Repr, DecidableEq

/-- Observable failure of an endpoint: an HTTPException with status code and
detail, or the unhandled AttributeError raised by reading .is_reserved on a
None room in create_reserved_room. -/
inductive Err where
  | http (status : Nat) (detail : String)
  | noneTypeAttributeError
deriving Repr, DecidableEq

/-- The persistent store: the three tables. -/
structure DB where
  users : List Users
  rooms : List Rooms
  reserved_rooms : List ReservedRooms
deriving Repr, DecidableEq

/-- Update the first element satisfying p (SQLAlchemy: mutate the object
returned by .first()). -/
def updateFirst (p : α → Bool) (f : α → α) : List α → List α
  | [] => []
  | x :: xs => if p x then f x :: xs else x :: updateFirst p f xs

/-- Remove the first element satisfying p (SQLAlchemy: db.delete on the
object returned by .first()). -/
def removeFirst (p : α → Bool) : List α → List α
  | [] => []
  | x :: xs => if p x then xs else x :: removeFirst p xs

/-- The ReservedRooms row that ReservedRooms(**reserved_room.dict()) builds:
every schema field copied (including actual), datetime filled by the
column's utcnow default, id by the store's autoincrement. -/
def mkReservedRow (reserved_room : ReservedRoomCreate) (now : Int)
    (newId : Nat) : ReservedRooms :=
  { id := newId
    id_room := reserved_room.id_room
    name := reserved_room.name
    surname := reserved_room.surname
    passport_series := reserved_room.passport_series
    phone_number := reserved_room.phone_number
    datetime := now
    checkin := reserved_room.checkin
    checkout := reserved_room.checkout
    commentary := reserved_room.commentary
    actual := reserved_room.actual }

/-- router_users.py, create_reserved_room (the Book operation).
The room lookup uses .first(); when it yields None the next line
room.is_reserved raises AttributeError (no NotFound check exists).
now is the server clock value used for the datetime column default;
newId is the autoincrement id the store assigns to the inserted row. -/
def create_reserved_room (reserved_room : ReservedRoomCreate) (now : Int)
    (newId : Nat) (db : DB) : Except Err ReservedRooms × DB :=
  match db.rooms.find? (fun r => r.id == reserved_room.id_room) with
  | none => (Except.error Err.noneTypeAttributeError, db)
  | some room =>
    if room.is_reserved then
      (Except.error (Err.http 404 "Номер забронирован!"), db)
    else
      let db_reserved_room : ReservedRooms := mkReservedRow reserved_room now newId
      (Except.ok db_reserved_room,
        { db with
            rooms := updateFirst (fun r => r.id == reserved_room.id_room)
              (fun r => { r with is_reserved := true }) db.rooms
            reserved_rooms := db.reserved_rooms ++ [db_reserved_room] })

/-- router_admins.py, update_all_data (the ExpireSweep operation).
The selection filter is checkout <= current_date only: there is no
actual filter in the source.  Room rows with id in the selected rows'
id_room list get is_reserved := false; the selected reservation rows get
actual := false; the pre-update selected list is returned. -/
def update_all_data (current_date : Int) (db : DB) : List ReservedRooms × DB :=
  let reserved_rooms :=
    db.reserved_rooms.filter (fun rr => decide (rr.checkout ≤ current_date))
  if reserved_rooms.isEmpty then ([], db)
  else
    let room_ids := reserved_rooms.map (fun rr => rr.id_room)
    let res_ids := reserved_rooms.map (fun rr => rr.id)
    (reserved_rooms,
      { db with
          rooms := db.rooms.map (fun r =>
            if room_ids.contains r.id then { r with is_reserved := false } else r)
          reserved_rooms := db.reserved_rooms.map (fun rr =>
            if res_ids.contains rr.id then { rr with actual := false } else rr) })

/-- router_admins.py, delete_room: 404 when no row has the id, otherwise
delete the row .first() returned and return its prior state. -/
def delete_room (id : Nat) (db : DB) : Except Err Rooms × DB :=
  match db.rooms.find? (fun r => r.id == id) with
  | none => (Except.error (Err.http 404 "Номер не найден!"), db)
  | some db_room =>
    (Except.ok db_room,
      { db with rooms := removeFirst (fun r => r.id == id) db.rooms })

/-- router_admins.py, read_reserved_room (ListReservations).  The source
checks the result of .all() against None, but .all() returns a list and
never None, so the 404 branch is unreachable and the full (possibly
empty) list is returned. -/
def read_reserved_room (db : DB) : Except Err (List ReservedRooms) × DB :=
  let db_reserved_room : Option (List ReservedRooms) := some db.reserved_rooms
  match db_reserved_room with
  | none => (Except.error (Err.http 404 "Забронированных номеров не найдено!"), db)
  | some rows => (Except.ok rows, db)

/-- router_admins.py, create_room: 400 when a room with the same
room_number exists, otherwise insert Rooms(**room.dict()) — including the
caller-supplied is_reserved flag — and return the created row. -/
def create_room (room : RoomCreate) (newId : Nat) (db : DB) :
    Except Err Rooms × DB :=
  match db.rooms.find? (fun r => r.room_number == room.room_number) with
  | some _ => (Except.error (Err.http 400 "Номер уже существует!"), db)
  | none =>
    let db_room : Rooms :=
      { id := newId
        room_type := room.room_type
        room_number := room.room_number
        count_room := room.count_room
        description := room.description
        floor := room.floor
        price := room.price
        is_reserved := room.is_reserved }
    (Except.ok db_room, { db with rooms := db.rooms ++ [db_room] })

/-- The seven sequential if-not-None assignments of update_room applied to
one row. -/
def applyUpdate (room : UpdateRoom) (db_room : Rooms) : Rooms :=
  let db_room := match room.room_type with
    | some v => { db_room with room_type := v }
    | none => db_room
  let db_room := match room.room_number with
    | some v => { db_room with room_number := v }
    | none => db_room
  let db_room := match room.count_room with
    | some v => { db_room with count_room := v }
    | none => db_room
  let db_room := match room.description with
    | some v => { db_room with description := v }
    | none => db_room
  let db_room := match room.floor with
    | some v => { db_room with floor := v }
    | none => db_room
  let db_room := match room.price with
    | some v => { db_room with price := v }
    | none => db_room
  match room.is_reserved with
  | some v => { db_room with is_reserved := v }
  | none => db_room

/-- router_admins.py, update_room: 404 when no row has the id, otherwise
apply each supplied field to the row .first() returned and return it. -/
def update_room (id : Nat) (room : UpdateRoom) (db : DB) :
    Except Err Rooms × DB :=
  match db.rooms.find? (fun r => r.id == id) with
  | none => (Except.error (Err.http 404 "Номер с таким id не найден!"), db)
  | some db_room =>
    (Except.ok (applyUpdate room db_room),
      { db with
          rooms := updateFirst (fun r => r.id == id)
            (fun r => applyUpdate room r) db.rooms })

/-- The reservation-consistency invariant of the spec: a room is flagged
reserved iff some reservation row references it with actual = true and
checkout strictly after today. -/
def roomInvariant (today : Int) (db : DB) : Prop :=
  ∀ r ∈ db.rooms, (r.is_reserved = true ↔
    ∃ rr ∈ db.reserved_rooms,
      rr.id_room = r.id ∧ rr.actual = true ∧ today < rr.checkout)

instance (today : Int) (db : DB) : Decidable (roomInvariant today db) := by
  unfold roomInvariant; infer_instance

/-! ### List helper lemmas for the query combinators -/

theorem find?_decomp {α : Type} {p : α → Bool} :
    ∀ {l : List α} {a : α}, l.find? p = some a →
      ∃ pre post, l = pre ++ a :: post ∧ (∀ x ∈ pre, p x = false) ∧ p a = true := by
  intro l
  induction l with
  | nil => intro a h; simp at h
  | cons x xs ih =>
    intro a h
    cases hx : p x with
    | false =>
      rw [List.find?_cons_of_neg _ (by simp [hx])] at h
      obtain ⟨pre, post, heq, hpre, hpa⟩ := ih h
      refine ⟨x :: pre, post, by rw [heq, List.cons_append], ?_, hpa⟩
      intro y hy
      rcases List.mem_cons.mp hy with h1 | h2
      · rw [h1]; exact hx
      · exact hpre y h2
    | true =>
      rw [List.find?_cons_of_pos _ hx] at h
      injection h with h2
      subst h2
      exact ⟨[], xs, rfl, by intro y hy; exact absurd hy (List.not_mem_nil y), hx⟩

theorem updateFirst_append {α : Type} (p : α → Bool) (f : α → α)
    (pre post : List α) (a : α) (hpre : ∀ x ∈ pre, p x = false) (ha : p a = true) :
    updateFirst p f (pre ++ a :: post) = pre ++ f a :: post := by
  induction pre with
  | nil => simp [updateFirst, ha]
  | cons x xs ih =>
    have hx : p x = false := hpre x (List.mem_cons_self x xs)
    simp only [List.cons_append, updateFirst, hx, Bool.false_eq_true, if_false]
    exact congrArg (fun t => x :: t) (ih (fun y hy => hpre y (List.mem_cons_of_mem x hy)))

theorem removeFirst_append {α : Type} (p : α → Bool)
    (pre post : List α) (a : α) (hpre : ∀ x ∈ pre, p x = false) (ha : p a = true) :
    removeFirst p (pre ++ a :: post) = pre ++ post := by
  induction pre with
  | nil => simp [removeFirst, ha]
  | cons x xs ih =>
    have hx : p x = false := hpre x (List.mem_cons_self x xs)
    simp only [List.cons_append, removeFirst, hx, Bool.false_eq_true, if_false]
    exact congrArg (fun t => x :: t) (ih (fun y hy => hpre y (List.mem_cons_of_mem x hy)))

theorem mem_removeFirst {α : Type} {p : α → Bool} :
    ∀ {l : List α} {x : α}, x ∈ removeFirst p l → x ∈ l := by
  intro l
  induction l with
  | nil => intro x h; simp [removeFirst] at h
  | cons y ys ih =>
    intro x h
    simp only [removeFirst] at h
    by_cases hy : p y
    · rw [if_pos hy] at h
      exact List.mem_cons_of_mem y h
    · rw [if_neg hy] at h
      rcases List.mem_cons.mp h with h1 | h2
      · rw [h1]; exact List.mem_cons_self y ys
      · exact List.mem_cons_of_mem y (ih h2)

theorem filter_map_pres {α : Type} (p : α → Bool) (f : α → α)
    (hf : ∀ a, p (f a) = p a) :
    ∀ l : List α, List.filter p (List.map f l) = List.map f (List.filter p l) := by
  intro l
  induction l with
  | nil => rfl
  | cons x xs ih =>
    cases hx : p x with
    | false => simp [List.filter_cons, hf, hx, ih]
    | true => simp [List.filter_cons, hf, hx, ih]

/-! ### Concrete fixtures used by counterexamples and witnesses -/

/-- An available room with id 1. -/
def room1 : Rooms :=
  { id := 1, room_type := "standard", room_number := 101, count_room := 1,
    description := "room", floor := 1, price := 100, is_reserved := false }

/-- A well-formed booking request for room 1 (actual defaults to true). -/
def req1 : ReservedRoomCreate :=
  { id_room := 1, name := "Ali", surname := "Valiyev",
    passport_series := "AB1234567", phone_number := "+99890 123-45-67",
    checkin := 10, checkout := 20, commentary := "ok" }

def dbEmpty : DB := { users := [], rooms := [], reserved_rooms := [] }

def dbRoom1 : DB := { users := [], rooms := [room1], reserved_rooms := [] }

/-! ### Claims -/

/-- C4 (code_bug evidence): the claim says Book fails with NotFound when no
room with the given id exists; the code instead reads .is_reserved on the
None returned by .first(), so booking a nonexistent room (room_id 1 against
an empty Rooms table) surfaces an AttributeError crash, not NotFound, though
no table is modified. -/
theorem C4_missing_room_attribute_error :
    create_reserved_room req1 0 1 dbEmpty =
      (Except.error Err.noneTypeAttributeError, dbEmpty) := rfl

/-- C6 (code_bug evidence): the claim says ListReservations fails with
NotFound on an empty ReservedRooms table; the code compares the list
returned by .all() with None, which never holds, so the empty table yields
Except.ok [] rather than the 404 its own docstring promises. -/
theorem C6_list_reservations_empty_ok :
    read_reserved_room dbEmpty = (Except.ok [], dbEmpty) := rfl

/-- The reservation row Book creates for the C9 request. -/
def row9 : ReservedRooms :=
  { id := 1, id_room := 1, name := "Ali", surname := "Valiyev",
    passport_series := "AB1234567", phone_number := "+99890 123-45-67",
    datetime := 0, checkin := 10, checkout := 20, commentary := "ok",
    actual := false }

/-- C9: Book copies the caller-supplied actual flag into the created row
rather than forcing it to true: every successfully created row has
actual equal to the request's flag, and the concrete request with
actual = false yields a row with actual = false while the room's
is_reserved is still set to true. -/
theorem C9_book_copies_actual_flag :
    (∀ (rr : ReservedRoomCreate) (now : Int) (newId : Nat) (db : DB)
        (row : ReservedRooms) (db2 : DB),
        create_reserved_room rr now newId db = (Except.ok row, db2) →
        row.actual = rr.actual) ∧
    ((create_reserved_room { req1 with actual := false } 0 1 dbRoom1).1 =
        Except.ok row9 ∧
      row9.actual = false ∧
      (create_reserved_room { req1 with actual := false } 0 1 dbRoom1).2.rooms =
        [{ room1 with is_reserved := true }]) := by
  constructor
  · intro rr now newId db row db2 h
    cases hf : db.rooms.find? (fun r => r.id == rr.id_room) with
    | none => simp [create_reserved_room, hf] at h
    | some room =>
      by_cases hr : room.is_reserved
      · simp [create_reserved_room, hf, hr] at h
      · simp only [create_reserved_room, hf, hr, Bool.false_eq_true, if_false,
          Prod.mk.injEq] at h
        obtain ⟨h1, _⟩ := h
        injection h1 with h1
        rw [← h1]
        rfl
  · exact ⟨rfl, rfl, rfl⟩

/-- Closed witness for the hypothesis-bearing half of C9. -/
theorem C9_book_copies_actual_flag_witness :
    row9.actual = ({ req1 with actual := false } : ReservedRoomCreate).actual :=
  C9_book_copies_actual_flag.1 { req1 with actual := false } 0 1 dbRoom1 row9
    (create_reserved_room { req1 with actual := false } 0 1 dbRoom1).2 rfl

/-- The room-creation request of C10, asking for is_reserved = true. -/
def roomReq10 : RoomCreate :=
  { room_type := "lux", room_number := 102, count_room := 2,
    description := "suite", floor := 2, is_reserved := true, price := 200 }

/-- The room CreateRoom stores for roomReq10. -/
def room10 : Rooms :=
  { id := 1, room_type := "lux", room_number := 102, count_room := 2,
    description := "suite", floor := 2, price := 200, is_reserved := true }

/-- C10: CreateRoom stores the caller-supplied is_reserved flag: the
concrete request with is_reserved = true against an empty store creates a
room with is_reserved = true although the ReservedRooms table is empty. -/
theorem C10_create_room_stores_caller_flag :
    (create_room roomReq10 1 dbEmpty).1 = Except.ok room10 ∧
    room10.is_reserved = true ∧
    (create_room roomReq10 1 dbEmpty).2.rooms = [room10] ∧
    (create_room roomReq10 1 dbEmpty).2.reserved_rooms = [] :=
  ⟨rfl, rfl, rfl, rfl⟩

/-- Spec-side description of the sweep, written from the amended C2 claim:
select exactly the reservation rows with checkout <= today (regardless of
their actual flag); set is_reserved := false on every room whose id is
referenced by a selected row; set actual := false on every selected row;
return the pre-update selected list. -/
def expireSweepSpec (today : Int) (db : DB) : List ReservedRooms × DB :=
  let expired := db.reserved_rooms.filter (fun rr => decide (rr.checkout ≤ today))
  (expired,
    { users := db.users
      rooms := db.rooms.map (fun r =>
        if (expired.map (fun rr => rr.id_room)).contains r.id then
          { r with is_reserved := false }
        else r)
      reserved_rooms := db.reserved_rooms.map (fun rr =>
        if (expired.map (fun rr => rr.id)).contains rr.id then
          { rr with actual := false }
        else rr) })

theorem update_all_data_eq_spec (today : Int) (db : DB) :
    update_all_data today db = expireSweepSpec today db := by
  simp only [update_all_data, expireSweepSpec]
  by_cases h :
      (db.reserved_rooms.filter (fun rr => decide (rr.checkout ≤ today))).isEmpty
  · rw [if_pos h]
    have he : db.reserved_rooms.filter (fun rr => decide (rr.checkout ≤ today)) = [] := by
      rwa [List.isEmpty_iff] at h
    rw [he]
    simp
  · rw [if_neg h]

/-- A stale, already-inactive reservation row for room 1. -/
def rowOldInactive : ReservedRooms :=
  { id := 2, id_room := 1, name := "Ali", surname := "Valiyev",
    passport_series := "AB1234567", phone_number := "+99890 123-45-67",
    datetime := 0, checkin := -10, checkout := -1, commentary := "old",
    actual := false }

def dbC2 : DB := { users := [], rooms := [room1], reserved_rooms := [rowOldInactive] }

/-- C2 counterexample: the claim says the sweep selects exactly the rows
with actual = true and checkout <= today; on a store whose only row has
actual = false and checkout <= today, the sweep nonetheless selects and
returns that row, because the source filters on checkout only. -/
theorem C2_counterexample :
    (update_all_data 0 dbC2).1 = [rowOldInactive] ∧ rowOldInactive.actual = false :=
  ⟨rfl, rfl⟩

/-- C2 (amended): ExpireSweep(today) selects exactly the ReservedRooms rows
with checkout <= today — regardless of their actual flag; for the room ids
referenced by those rows it sets is_reserved = false on each matching Room
and actual = false on each selected row, one batch update per table, and
returns the pre-update list of the selected rows. -/
theorem C2_expire_sweep_behavior (today : Int) (db : DB) :
    update_all_data today db = expireSweepSpec today db :=
  update_all_data_eq_spec today db

theorem checkout_if_set_actual (ids : List Nat) (today : Int) (rr : ReservedRooms) :
    decide ((if ids.contains rr.id then { rr with actual := false } else rr).checkout ≤ today)
      = decide (rr.checkout ≤ today) := by
  by_cases hc : ids.contains rr.id = true
  · rw [if_pos hc]
  · rw [if_neg hc]

theorem map_if_idem {α : Type} (q : α → Bool) (f : α → α)
    (hq : ∀ a, q (f a) = q a) (hf : ∀ a, f (f a) = f a) (l : List α) :
    (l.map (fun a => if q a then f a else a)).map (fun a => if q a then f a else a) =
      l.map (fun a => if q a then f a else a) := by
  rw [List.map_map]
  apply List.map_congr_left
  intro a _
  by_cases hqa : q a
  · simp [Function.comp, hqa, hq a, hf a]
  · simp [Function.comp, hqa]

theorem map_key_if {α β : Type} (q : α → Bool) (f : α → α) (k : α → β)
    (hk : ∀ a, k (f a) = k a) (l : List α) :
    (l.map (fun a => if q a then f a else a)).map k = l.map k := by
  rw [List.map_map]
  apply List.map_congr_left
  intro a _
  by_cases hqa : q a
  · simp [Function.comp, hqa, hk a]
  · simp [Function.comp, hqa]

theorem reserved_filter_sweep (today : Int) (ids : List Nat) (l : List ReservedRooms) :
    (l.map (fun rr => if ids.contains rr.id then { rr with actual := false } else rr)).filter
        (fun rr => decide (rr.checkout ≤ today)) =
      (l.filter (fun rr => decide (rr.checkout ≤ today))).map
        (fun rr => if ids.contains rr.id then { rr with actual := false } else rr) :=
  filter_map_pres _ _ (fun a => checkout_if_set_actual ids today a) l

theorem reserved_map_id_key (ids : List Nat) (l : List ReservedRooms) :
    (l.map (fun rr => if ids.contains rr.id then { rr with actual := false } else rr)).map
        (fun rr => rr.id) = l.map (fun rr => rr.id) :=
  map_key_if (fun rr => ids.contains rr.id) (fun rr => { rr with actual := false })
    (fun rr => rr.id) (fun _ => rfl) l

theorem reserved_map_idroom_key (ids : List Nat) (l : List ReservedRooms) :
    (l.map (fun rr => if ids.contains rr.id then { rr with actual := false } else rr)).map
        (fun rr => rr.id_room) = l.map (fun rr => rr.id_room) :=
  map_key_if (fun rr => ids.contains rr.id) (fun rr => { rr with actual := false })
    (fun rr => rr.id_room) (fun _ => rfl) l

theorem rooms_sweep_idem (ids : List Nat) (l : List Rooms) :
    (l.map (fun r => if ids.contains r.id then { r with is_reserved := false } else r)).map
        (fun r => if ids.contains r.id then { r with is_reserved := false } else r) =
      l.map (fun r => if ids.contains r.id then { r with is_reserved := false } else r) :=
  map_if_idem (fun r => ids.contains r.id) (fun r => { r with is_reserved := false })
    (fun _ => rfl) (fun _ => rfl) l

theorem reserved_sweep_idem (ids : List Nat) (l : List ReservedRooms) :
    (l.map (fun rr => if ids.contains rr.id then { rr with actual := false } else rr)).map
        (fun rr => if ids.contains rr.id then { rr with actual := false } else rr) =
      l.map (fun rr => if ids.contains rr.id then { rr with actual := false } else rr) :=
  map_if_idem (fun rr => ids.contains rr.id) (fun rr => { rr with actual := false })
    (fun _ => rfl) (fun _ => rfl) l

theorem expireSweepSpec_second (today : Int) (db : DB) :
    (expireSweepSpec today (expireSweepSpec today db).2).2 =
      (expireSweepSpec today db).2 ∧
    (expireSweepSpec today (expireSweepSpec today db).2).1 =
      (expireSweepSpec today db).1.map (fun rr => { rr with actual := false }) := by
  simp only [expireSweepSpec]
  simp only [reserved_filter_sweep]
  simp only [reserved_map_id_key, reserved_map_idroom_key]
  simp only [rooms_sweep_idem, reserved_sweep_idem]
  refine ⟨trivial, ?_⟩
  apply List.map_congr_left
  intro rr hrr
  have hc : ((db.reserved_rooms.filter
      (fun rr => decide (rr.checkout ≤ today))).map (fun rr => rr.id)).contains rr.id = true :=
    List.elem_eq_true_of_mem (List.mem_map_of_mem _ hrr)
  exact if_pos hc

/-- A past-checkout reservation row that is still active. -/
def rowPastActive : ReservedRooms :=
  { id := 3, id_room := 1, name := "Bobur", surname := "Qodirov",
    passport_series := "CD7654321", phone_number := "+99891 765-43-21",
    datetime := 0, checkin := -5, checkout := -1, commentary := "past",
    actual := true }

def dbC3 : DB :=
  { users := [], rooms := [{ room1 with is_reserved := true }],
    reserved_rooms := [rowPastActive] }

/-- C3 counterexample: on a store with one active row whose checkout has
passed, the second run of the sweep with the same date returns that row
again (now with actual = false) instead of the empty list the claim
promises, because the selection filters on checkout only and keeps
selecting already-expired rows. -/
theorem C3_counterexample :
    (update_all_data 0 (update_all_data 0 dbC3).2).1 ≠ [] := by decide

/-- C3 (amended): running ExpireSweep twice with the same date and no
intervening bookings leaves the state equal to the state after the first
run, but the second run returns the same selected rows again (each with
actual = false) rather than an empty list; the result is empty only when
no row has checkout <= today. -/
theorem C3_expire_sweep_idempotent_state (today : Int) (db : DB) :
    (update_all_data today (update_all_data today db).2).2 =
      (update_all_data today db).2 ∧
    (update_all_data today (update_all_data today db).2).1 =
      (update_all_data today db).1.map (fun rr => { rr with actual := false }) := by
  simp only [update_all_data_eq_spec]
  exact expireSweepSpec_second today db

theorem find?_of_decomp {α : Type} (p : α → Bool) (pre post : List α) (a : α)
    (hpre : ∀ x ∈ pre, p x = false) (ha : p a = true) :
    (pre ++ a :: post).find? p = some a := by
  induction pre with
  | nil => simp only [List.nil_append]; exact List.find?_cons_of_pos _ ha
  | cons x xs ih =>
    have hx : p x = false := hpre x (List.mem_cons_self x xs)
    rw [List.cons_append, List.find?_cons_of_neg _ (by simp [hx])]
    exact ih (fun y hy => hpre y (List.mem_cons_of_mem x hy))

/-- C5 counterexample: the claim says every successful booking inserts a row
with actual = true; the concrete request carrying actual = false succeeds
against an available room yet the created (and returned) row has
actual = false. -/
theorem C5_counterexample :
    (create_reserved_room { req1 with actual := false } 7 4 dbRoom1).1 =
      Except.ok (mkReservedRow { req1 with actual := false } 7 4) ∧
    (mkReservedRow { req1 with actual := false } 7 4).actual = false :=
  ⟨rfl, rfl⟩

/-- C5 (amended): for every booking request naming an existing room whose
is_reserved flag is false, Book, in one returned state, sets that room's
is_reserved to true (leaving every other room untouched) and appends one
new ReservedRooms row whose actual equals the request's actual flag
(default true) and whose datetime is the server-assigned timestamp, and
returns the created row including its assigned id and timestamp. -/
theorem C5_book_success_behavior (rr : ReservedRoomCreate) (now : Int)
    (newId : Nat) (db : DB) (pre post : List Rooms) (room : Rooms)
    (hrooms : db.rooms = pre ++ room :: post)
    (hpre : ∀ x ∈ pre, (x.id == rr.id_room) = false)
    (hroom : (room.id == rr.id_room) = true)
    (hfree : room.is_reserved = false) :
    create_reserved_room rr now newId db =
      (Except.ok (mkReservedRow rr now newId),
        { users := db.users
          rooms := pre ++ { room with is_reserved := true } :: post
          reserved_rooms := db.reserved_rooms ++ [mkReservedRow rr now newId] }) ∧
    (mkReservedRow rr now newId).id = newId ∧
    (mkReservedRow rr now newId).datetime = now ∧
    (mkReservedRow rr now newId).actual = rr.actual := by
  have hfind : db.rooms.find? (fun r => r.id == rr.id_room) = some room := by
    rw [hrooms]; exact find?_of_decomp _ pre post room hpre hroom
  have hneg : ¬ (room.is_reserved = true) := by rw [hfree]; exact Bool.false_ne_true
  refine ⟨?_, rfl, rfl, rfl⟩
  simp only [create_reserved_room, hfind]
  rw [if_neg hneg, hrooms,
    updateFirst_append _ _ pre post room hpre hroom]

/-- Closed witness for C5: booking room 1 of the one-room store. -/
theorem C5_book_success_behavior_witness :
    create_reserved_room req1 0 1 dbRoom1 =
      (Except.ok (mkReservedRow req1 0 1),
        { users := []
          rooms := [{ room1 with is_reserved := true }]
          reserved_rooms := [mkReservedRow req1 0 1] }) ∧
    (mkReservedRow req1 0 1).id = 1 ∧
    (mkReservedRow req1 0 1).datetime = 0 ∧
    (mkReservedRow req1 0 1).actual = req1.actual :=
  C5_book_success_behavior req1 0 1 dbRoom1 [] [] room1 rfl
    (fun x hx => absurd hx (List.not_mem_nil x)) rfl rfl

theorem applyUpdate_spec (u : UpdateRoom) (room : Rooms) :
    (applyUpdate u room).room_type = u.room_type.getD room.room_type ∧
    (applyUpdate u room).room_number = u.room_number.getD room.room_number ∧
    (applyUpdate u room).count_room = u.count_room.getD room.count_room ∧
    (applyUpdate u room).description = u.description.getD room.description ∧
    (applyUpdate u room).floor = u.floor.getD room.floor ∧
    (applyUpdate u room).price = u.price.getD room.price ∧
    (applyUpdate u room).is_reserved = u.is_reserved.getD room.is_reserved ∧
    (applyUpdate u room).id = room.id := by
  obtain ⟨f1, f2, f3, f4, f5, f6, f7⟩ := u
  cases f1 <;> cases f2 <;> cases f3 <;> cases f4 <;> cases f5 <;> cases f6 <;>
    cases f7 <;> exact ⟨rfl, rfl, rfl, rfl, rfl, rfl, rfl, rfl⟩

/-- C7: UpdateRoom partial-update frame.  For an existing room (given as the
first row whose id matches), every supplied field of the request is written
and every omitted field keeps the room's prior value (Option.getD); the
room's id is untouched, the rooms before and after it in the table are
returned verbatim, and the Users and ReservedRooms tables are unchanged. -/
theorem C7_update_room_frame (id : Nat) (u : UpdateRoom) (db : DB)
    (pre post : List Rooms) (room : Rooms)
    (hrooms : db.rooms = pre ++ room :: post)
    (hpre : ∀ x ∈ pre, (x.id == id) = false)
    (hroom : (room.id == id) = true) :
    update_room id u db =
      (Except.ok (applyUpdate u room),
        { users := db.users
          rooms := pre ++ applyUpdate u room :: post
          reserved_rooms := db.reserved_rooms }) ∧
    (applyUpdate u room).room_type = u.room_type.getD room.room_type ∧
    (applyUpdate u room).room_number = u.room_number.getD room.room_number ∧
    (applyUpdate u room).count_room = u.count_room.getD room.count_room ∧
    (applyUpdate u room).description = u.description.getD room.description ∧
    (applyUpdate u room).floor = u.floor.getD room.floor ∧
    (applyUpdate u room).price = u.price.getD room.price ∧
    (applyUpdate u room).is_reserved = u.is_reserved.getD room.is_reserved ∧
    (applyUpdate u room).id = room.id := by
  have hfind : db.rooms.find? (fun r => r.id == id) = some room := by
    rw [hrooms]; exact find?_of_decomp _ pre post room hpre hroom
  refine ⟨?_, applyUpdate_spec u room⟩
  simp only [update_room, hfind]
  rw [hrooms, updateFirst_append _ _ pre post room hpre hroom]

/-- Concrete update request: change only the price of a room. -/
def upd7 : UpdateRoom := { price := some 150 }

/-- Closed witness for C7: updating only the price of room 1 leaves all
other fields and tables as they were. -/
theorem C7_update_room_frame_witness :
    update_room 1 upd7 dbRoom1 =
      (Except.ok (applyUpdate upd7 room1),
        { users := []
          rooms := [applyUpdate upd7 room1]
          reserved_rooms := [] }) ∧
    (applyUpdate upd7 room1).room_type = upd7.room_type.getD room1.room_type ∧
    (applyUpdate upd7 room1).room_number = upd7.room_number.getD room1.room_number ∧
    (applyUpdate upd7 room1).count_room = upd7.count_room.getD room1.count_room ∧
    (applyUpdate upd7 room1).description = upd7.description.getD room1.description ∧
    (applyUpdate upd7 room1).floor = upd7.floor.getD room1.floor ∧
    (applyUpdate upd7 room1).price = upd7.price.getD room1.price ∧
    (applyUpdate upd7 room1).is_reserved = upd7.is_reserved.getD room1.is_reserved ∧
    (applyUpdate upd7 room1).id = room1.id :=
  C7_update_room_frame 1 upd7 dbRoom1 [] [] room1 rfl
    (fun x hx => absurd hx (List.not_mem_nil x)) rfl

/-- C8: DeleteRoom.  When no room has the given id the call fails with the
404 NotFound error and returns the store unchanged; when a room exists
(given as the first row whose id matches) the call removes exactly that row
— for any contents of the ReservedRooms table, which it never consults and
leaves unchanged — and returns the deleted room's prior state. -/
theorem C8_delete_room_behavior (id : Nat) (db : DB) :
    (db.rooms.find? (fun r => r.id == id) = none →
      delete_room id db = (Except.error (Err.http 404 "Номер не найден!"), db)) ∧
    (∀ pre post room, db.rooms = pre ++ room :: post →
      (∀ x ∈ pre, (x.id == id) = false) → (room.id == id) = true →
      delete_room id db =
        (Except.ok room,
          { users := db.users
            rooms := pre ++ post
            reserved_rooms := db.reserved_rooms })) := by
  constructor
  · intro h
    simp [delete_room, h]
  · intro pre post room hrooms hpre hroom
    have hfind : db.rooms.find? (fun r => r.id == id) = some room := by
      rw [hrooms]; exact find?_of_decomp _ pre post room hpre hroom
    simp only [delete_room, hfind]
    rw [hrooms, removeFirst_append _ pre post room hpre hroom]

/-- Closed witness for C8: deleting a missing room errs and changes
nothing; deleting room 1 while a reservation row still references it
succeeds and leaves the ReservedRooms table intact. -/
theorem C8_delete_room_behavior_witness :
    delete_room 1 dbEmpty = (Except.error (Err.http 404 "Номер не найден!"), dbEmpty) ∧
    delete_room 1 dbC2 =
      (Except.ok room1,
        { users := [], rooms := [], reserved_rooms := [rowOldInactive] }) :=
  ⟨(C8_delete_room_behavior 1 dbEmpty).1 rfl,
    (C8_delete_room_behavior 1 dbC2).2 [] [] room1 rfl
      (fun x hx => absurd hx (List.not_mem_nil x)) rfl⟩

theorem exists_row_append_irrelevant (today : Int) (l : List ReservedRooms)
    (w : ReservedRooms) (rid : Nat) (hw : w.id_room ≠ rid) :
    (∃ rr ∈ l, rr.id_room = rid ∧ rr.actual = true ∧ today < rr.checkout) ↔
    (∃ rr ∈ l ++ [w], rr.id_room = rid ∧ rr.actual = true ∧ today < rr.checkout) := by
  constructor
  · rintro ⟨rr, hm, hp⟩
    exact ⟨rr, List.mem_append_left _ hm, hp⟩
  · rintro ⟨rr, hm, hp⟩
    rcases List.mem_append.mp hm with h1 | h2
    · exact ⟨rr, h1, hp⟩
    · have hrw : rr = w := List.mem_singleton.mp h2
      subst hrw
      exact absurd hp.1 hw

/-- C1 counterexample: the empty store satisfies the reservation-consistency
invariant, yet CreateRoom — one of the five operations the claim says
preserve it — applied to the request asking for is_reserved = true yields a
state that violates it (a room flagged reserved with no reservation row at
all). -/
theorem C1_counterexample :
    roomInvariant 0 dbEmpty ∧
    ¬ roomInvariant 0 (create_room roomReq10 1 dbEmpty).2 := by
  constructor
  · decide
  · decide

/-- C1 (amended): from a state satisfying the reservation-consistency
invariant, Book preserves it whenever the request carries actual = true and
a checkout strictly after today (given pairwise-distinct room ids, the
primary-key constraint), and DeleteRoom always preserves it; ExpireSweep,
UpdateRoom and CreateRoom do not preserve it in general. -/
theorem C1_invariant_preservation (today : Int) (db : DB)
    (hinv : roomInvariant today db) :
    (∀ (rr : ReservedRoomCreate) (now : Int) (newId : Nat) (row : ReservedRooms)
        (db2 : DB),
        rr.actual = true → today < rr.checkout →
        db.rooms.Pairwise (fun a b => a.id ≠ b.id) →
        create_reserved_room rr now newId db = (Except.ok row, db2) →
        roomInvariant today db2) ∧
    (∀ (id : Nat) (room : Rooms) (db2 : DB),
        delete_room id db = (Except.ok room, db2) →
        roomInvariant today db2) := by
  constructor
  · intro rr now newId row db2 hact hco hdistinct h
    cases hf : db.rooms.find? (fun r => r.id == rr.id_room) with
    | none => simp [create_reserved_room, hf] at h
    | some room =>
      by_cases hr : room.is_reserved = true
      · simp [create_reserved_room, hf, hr] at h
      · simp only [create_reserved_room, hf] at h
        rw [if_neg hr, Prod.mk.injEq] at h
        obtain ⟨h1, h2⟩ := h
        subst h2
        obtain ⟨pre, post, heq, hpre, hpa⟩ := find?_decomp hf
        have hrid : room.id = rr.id_room := by simpa using hpa
        have hupd : updateFirst (fun r => r.id == rr.id_room)
            (fun r => { r with is_reserved := true }) db.rooms =
            pre ++ { room with is_reserved := true } :: post := by
          rw [heq]; exact updateFirst_append _ _ pre post room hpre hpa
        have hpost : ∀ b ∈ post, room.id ≠ b.id := by
          rw [heq] at hdistinct
          exact (List.pairwise_cons.mp (List.pairwise_append.mp hdistinct).2.1).1
        simp only [roomInvariant]
        rw [hupd]
        intro r2 hr2
        rcases List.mem_append.mp hr2 with hx | hx
        · have hne : r2.id ≠ rr.id_room := by simpa using hpre r2 hx
          have hmem : r2 ∈ db.rooms := by
            rw [heq]; exact List.mem_append_left _ hx
          rw [hinv r2 hmem]
          exact exists_row_append_irrelevant today db.reserved_rooms _ r2.id
            (Ne.symm hne)
        · rcases List.mem_cons.mp hx with hx2 | hx3
          · subst hx2
            constructor
            · intro _
              exact ⟨mkReservedRow rr now newId,
                List.mem_append_right _ (List.mem_singleton.mpr rfl),
                hrid.symm, hact, hco⟩
            · intro _
              rfl
          · have h3 : rr.id_room ≠ r2.id := by
              rw [← hrid]; exact hpost r2 hx3
            have hmem : r2 ∈ db.rooms := by
              rw [heq]
              exact List.mem_append_right _ (List.mem_cons_of_mem _ hx3)
            rw [hinv r2 hmem]
            exact exists_row_append_irrelevant today db.reserved_rooms _ r2.id h3
  · intro id room db2 h
    cases hf : db.rooms.find? (fun r => r.id == id) with
    | none => simp [delete_room, hf] at h
    | some r0 =>
      simp only [delete_room, hf, Prod.mk.injEq] at h
      obtain ⟨h1, h2⟩ := h
      subst h2
      simp only [roomInvariant]
      intro r2 hr2
      exact hinv r2 (mem_removeFirst hr2)

/-- Closed witness for C1: the one-room store satisfies the invariant, and
both a well-formed booking (actual = true, future checkout) and a room
deletion land in invariant-satisfying states. -/
theorem C1_invariant_preservation_witness :
    roomInvariant 0 (create_reserved_room req1 0 1 dbRoom1).2 ∧
    roomInvariant 0 (delete_room 1 dbRoom1).2 :=
  ⟨(C1_invariant_preservation 0 dbRoom1 (by decide)).1 req1 0 1
      (mkReservedRow req1 0 1) (create_reserved_room req1 0 1 dbRoom1).2
      rfl (by decide) (by decide) rfl,
    (C1_invariant_preservation 0 dbRoom1 (by decide)).2 1 room1
      (delete_room 1 dbRoom1).2 rfl⟩

end Hotel
